import Mathlib

/-
  Verification of the `users` CRUD function handler (func.py).

  The embedding models the request-routing and data-access path of the
  handler: method dispatch, path-based identifier extraction, payload
  validation, SQL statement construction and execution against a
  database modelled as a list of rows, and response shaping.

  Conventions of the embedding:
  * A parsed JSON payload field is `Option String`: `none` models both an
    absent key and JSON null (in Python, `payload.get(k)` returns None for
    both); `some s` a string value.  The data model types the three fields
    as strings.
  * Python truthiness of such a value: None and the empty string are falsy.
  * The database is a list of rows; positional bind values are
    `Option String` (None becomes SQL NULL).  SQL NULL compares unequal to
    everything, as in the source database.
  * Each handler returns an outcome (a response, a raised error, or the
    silent None fall-through), the database state after the call, and the
    trace of statements executed and commits issued, in order.
-/

/-- Python `split` on the character `/`: splits at every separator keeping
empty pieces; the empty string yields `[[]]`, matching `"".split("/") == [""]`. -/
def splitSlash : List Char → List (List Char)
  | [] => [[]]
  | c :: cs =>
    if c = '/' then [] :: splitSlash cs
    else
      match splitSlash cs with
      | [] => [[c]]
      | h :: t => (c :: h) :: t

/-- Python `strip("/")`: remove every leading and trailing `/`. -/
def stripSlash (l : List Char) : List Char :=
  ((l.dropWhile (· = '/')).reverse.dropWhile (· = '/')).reverse

/-- The segment list the handlers compute: `path.strip("/").split("/")`. -/
def pathSegments (path : String) : List (List Char) :=
  splitSlash (stripSlash path.data)

/-- The path parser inlined in every handler (func.py lines 60 to 63, 107
to 109, 198 to 200, 234 to 236): if the segment list has length at least 2
and the second-to-last segment is the literal `users`, the identifier is
the last segment; otherwise none.  Total: it raises no exception. -/
def parse_user_id (path : String) : Option String :=
  if 2 ≤ (pathSegments path).length ∧
      (pathSegments path).getD ((pathSegments path).length - 2) [] = "users".data
  then some (String.mk ((pathSegments path).getD ((pathSegments path).length - 1) []))
  else none

/-- The fields of the parsed JSON payload read by the handlers. -/
structure Payload where
  first_name : Option String
  last_name : Option String
  username : Option String
deriving DecidableEq

/-- The raw request body, as seen through `data.getvalue()` and
`json.loads`: empty bytes, bytes that are not valid JSON, or a parsed
JSON object. -/
inductive BodyData
  | emptyBody
  | badJson
  | jsonBody (p : Payload)
deriving DecidableEq

/-- An inbound request: HTTP method, URL path, raw body. -/
structure Request where
  method : String
  url : String
  body : BodyData
deriving DecidableEq

/-- Python truthiness of a payload field value. -/
def pyTruthy : Option String → Bool
  | none => false
  | some s => s ≠ ""

/-- A timestamp as the database driver returns it (a datetime value). -/
structure PyDateTime where
  year : Nat
  month : Nat
  day : Nat
  hour : Nat
  minute : Nat
  second : Nat
deriving DecidableEq

/-- Zero-pad a number to two digits. -/
def pad2 (n : Nat) : String :=
  if n < 10 then "0" ++ toString n else toString n

/-- Zero-pad a number to four digits. -/
def pad4 (n : Nat) : String :=
  if n < 10 then "000" ++ toString n
  else if n < 100 then "00" ++ toString n
  else if n < 1000 then "0" ++ toString n
  else toString n

/-- `datetime.isoformat()`: the ISO-8601 text form of the timestamp. -/
def isoformat (d : PyDateTime) : String :=
  pad4 d.year ++ "-" ++ pad2 d.month ++ "-" ++ pad2 d.day ++ "T" ++
    pad2 d.hour ++ ":" ++ pad2 d.minute ++ ":" ++ pad2 d.second

/-- A value stored in a database column: SQL NULL, a string, or a
timestamp. -/
inductive CellVal
  | vnull
  | vstr (s : String)
  | vdate (d : PyDateTime)
deriving DecidableEq

/-- A row of the `users` table. -/
structure UserRow where
  ID : CellVal
  FIRST_NAME : CellVal
  LAST_NAME : CellVal
  USERNAME : CellVal
  CREATED_ON : CellVal
deriving DecidableEq

/-- The database state: the rows of the single `users` table, in insertion
order. -/
abbrev DB := List UserRow

/-- Convert a Python bind value to the stored column value: None becomes
SQL NULL. -/
def toCell : Option String → CellVal
  | none => CellVal.vnull
  | some s => CellVal.vstr s

/-- `WHERE ID = :1`: SQL equality of a stored cell against a bind value.
NULL compares unequal to everything. -/
def bindMatches : CellVal → Option String → Bool
  | CellVal.vstr s, some t => s == t
  | _, _ => false

/-- Python truthiness of a cell value: NULL and the empty string are
falsy; a datetime is always truthy. -/
def cellTruthy : CellVal → Bool
  | CellVal.vnull => false
  | CellVal.vstr s => s ≠ ""
  | CellVal.vdate _ => true

/-- The cursor description of the two SELECT statements: the column names,
uppercase, in select order. -/
def cursorDescription : List String :=
  ["ID", "FIRST_NAME", "LAST_NAME", "USERNAME", "CREATED_ON"]

/-- The cell values of a row, in select order. -/
def rowCells (r : UserRow) : List CellVal :=
  [r.ID, r.FIRST_NAME, r.LAST_NAME, r.USERNAME, r.CREATED_ON]

/-- The rowfactory of func.py lines 132 and 165:
`dict(zip([d[0] for d in dbcursor.description], args))`. -/
def rowToDict (r : UserRow) : List (String × CellVal) :=
  List.zip cursorDescription (rowCells r)

/-- Python `dict.get`. -/
def dictGet (d : List (String × CellVal)) (k : String) : Option CellVal :=
  (d.find? (fun kv => kv.1 == k)).map (fun kv => kv.2)

/-- Python `dict[k] = v` on an existing key: replace the value at the key,
keeping insertion order. -/
def dictSet (d : List (String × CellVal)) (k : String) (v : CellVal) :
    List (String × CellVal) :=
  d.map (fun kv => if kv.1 == k then (k, v) else kv)

/-- Replace a datetime cell by its ISO-8601 text form; rows of `users`
carry a timestamp or NULL in CREATED_ON, so no other case arises. -/
def isoCell : CellVal → CellVal
  | CellVal.vdate d => CellVal.vstr (isoformat d)
  | v => v

/-- Python truthiness of `result.get("CREATED_ON")`: a missing key is
falsy. -/
def optCellTruthy : Option CellVal → Bool
  | none => false
  | some v => cellTruthy v

/-- func.py lines 135 to 137 and 168 to 170: if the CREATED_ON value of a
row dict is truthy, replace it with its isoformat string. -/
def fixCreatedOn (d : List (String × CellVal)) : List (String × CellVal) :=
  if optCellTruthy (dictGet d "CREATED_ON")
  then dictSet d "CREATED_ON" (isoCell ((dictGet d "CREATED_ON").getD CellVal.vnull))
  else d

/-- The errors the handlers raise, by Python exception class and message. -/
inductive PyErr
  | keyError (msg : String)
  | jsonDecodeError
  | valueError (msg : String)
  | dbError (msg : String)
deriving DecidableEq

/-- The serialized response body: a message object, a mapped row object,
or an array of mapped row objects. -/
inductive RespBody
  | message (s : String)
  | rowObj (d : List (String × CellVal))
  | rowArr (ds : List (List (String × CellVal)))
deriving DecidableEq

/-- A response: body and headers, as built by `response.Response`. -/
structure Response where
  response_data : RespBody
  headers : List (String × String)
deriving DecidableEq

/-- The headers every handler sets. -/
def jsonHeaders : List (String × String) := [("Content-Type", "application/json")]

/-- One entry of the execution trace: a statement executed with its
positional bind values, or a commit. -/
inductive Eff
  | exec (stmt : String) (binds : List (Option String))
  | commit
deriving DecidableEq

/-- What a handler call produces: a returned response, a raised error, or
the silent None fall-through of the method dispatcher. -/
inductive Outcome
  | ok (r : Response)
  | err (e : PyErr)
  | noResponse
deriving DecidableEq

/-- Result of a handler call: outcome, database state after the call, and
the ordered trace of statements and commits. -/
structure HResult where
  outcome : Outcome
  db : DB
  trace : List Eff
deriving DecidableEq

/-- func.py lines 78 to 81, whitespace normalized. -/
def insert_sql : String :=
  "INSERT INTO users (ID, FIRST_NAME, LAST_NAME, USERNAME) VALUES (:1, :2, :3, :4)"

/-- func.py lines 122 to 126, whitespace normalized. -/
def select_one_sql : String :=
  "SELECT ID, FIRST_NAME, LAST_NAME, USERNAME, CREATED_ON FROM users WHERE ID = :1"

/-- func.py lines 157 to 160, whitespace normalized. -/
def select_all_sql : String :=
  "SELECT ID, FIRST_NAME, LAST_NAME, USERNAME, CREATED_ON FROM users"

/-- func.py lines 209 to 213, whitespace normalized. -/
def update_sql : String :=
  "UPDATE users SET FIRST_NAME = :1, LAST_NAME = :2, USERNAME = :3 WHERE ID = :4"

/-- func.py lines 250 to 253, whitespace normalized. -/
def delete_sql : String :=
  "DELETE FROM users WHERE ID = :1"

/-- Does a row with this id already exist (the unique constraint on ID)? -/
def idExists (db : DB) (uid : String) : Bool :=
  db.any (fun r => bindMatches r.ID (some uid))

/-- func.py handle_post (lines 50 to 101).  Payload checks, then path
parse into `user_id` initialized to the empty string, then the required
field checks, then INSERT and commit.  `now` is the server-assigned
CREATED_ON timestamp of a newly inserted row. -/
def handle_post (now : PyDateTime) (req : Request) (db : DB) : HResult :=
  match req.body with
  | BodyData.emptyBody => ⟨Outcome.err (PyErr.keyError "No keys in payload"), db, []⟩
  | BodyData.badJson => ⟨Outcome.err PyErr.jsonDecodeError, db, []⟩
  | BodyData.jsonBody payload =>
    let user_id := (parse_user_id req.url).getD ""
    if user_id = "" then
      ⟨Outcome.err (PyErr.valueError "Missing required fields: user_id"), db, []⟩
    else if !(pyTruthy payload.first_name) || !(pyTruthy payload.last_name)
        || !(pyTruthy payload.username) then
      ⟨Outcome.err (PyErr.valueError "Missing required fields: first_name, last_name, username"),
        db, []⟩
    else
      let binds := [some user_id, payload.first_name, payload.last_name, payload.username]
      if idExists db user_id then
        ⟨Outcome.err (PyErr.dbError "ORA-00001: unique constraint violated"),
          db, [Eff.exec insert_sql binds]⟩
      else
        ⟨Outcome.ok ⟨RespBody.message "User created successfully", jsonHeaders⟩,
          db ++ [⟨CellVal.vstr user_id, toCell payload.first_name,
            toCell payload.last_name, toCell payload.username, CellVal.vdate now⟩],
          [Eff.exec insert_sql binds, Eff.commit]⟩

/-- func.py read_user (lines 120 to 153): SELECT one row by id, map it,
or answer with the not-found message. -/
def read_user (uid : String) (db : DB) : HResult :=
  let trace := [Eff.exec select_one_sql [some uid]]
  match db.find? (fun r => bindMatches r.ID (some uid)) with
  | some row =>
    ⟨Outcome.ok ⟨RespBody.rowObj (fixCreatedOn (rowToDict row)), jsonHeaders⟩, db, trace⟩
  | none =>
    ⟨Outcome.ok ⟨RespBody.message "User not found", jsonHeaders⟩, db, trace⟩

/-- func.py read_all_users (lines 155 to 180): SELECT every row, map each. -/
def read_all_users (db : DB) : HResult :=
  ⟨Outcome.ok ⟨RespBody.rowArr (db.map (fun r => fixCreatedOn (rowToDict r))), jsonHeaders⟩,
    db, [Eff.exec select_all_sql []]⟩

/-- func.py handle_get (lines 103 to 117): parse the path; a falsy
`user_id` (None) routes to read_all_users, otherwise read_user. -/
def handle_get (req : Request) (db : DB) : HResult :=
  match parse_user_id req.url with
  | none => read_all_users db
  | some s => if s = "" then read_all_users db else read_user s db

/-- func.py update_user (lines 194 to 228): parse the path, require a
truthy user_id, read the three payload fields WITHOUT validating them,
then UPDATE and commit. -/
def update_user (req : Request) (payload : Payload) (db : DB) : HResult :=
  match parse_user_id req.url with
  | none => ⟨Outcome.err (PyErr.valueError "Missing required fields: user_id"), db, []⟩
  | some user_id =>
    if user_id = "" then
      ⟨Outcome.err (PyErr.valueError "Missing required fields: user_id"), db, []⟩
    else
      let binds := [payload.first_name, payload.last_name, payload.username, some user_id]
      ⟨Outcome.ok ⟨RespBody.message "User updated successfully", jsonHeaders⟩,
        db.map (fun r =>
          if bindMatches r.ID (some user_id) then
            { r with FIRST_NAME := toCell payload.first_name,
                     LAST_NAME := toCell payload.last_name,
                     USERNAME := toCell payload.username }
          else r),
        [Eff.exec update_sql binds, Eff.commit]⟩

/-- func.py handle_put (lines 182 to 192): payload checks, then
update_user. -/
def handle_put (req : Request) (db : DB) : HResult :=
  match req.body with
  | BodyData.emptyBody => ⟨Outcome.err (PyErr.keyError "No keys in payload"), db, []⟩
  | BodyData.badJson => ⟨Outcome.err PyErr.jsonDecodeError, db, []⟩
  | BodyData.jsonBody payload => update_user req payload db

/-- func.py delete_user (lines 247 to 268): DELETE by id and commit. -/
def delete_user (uid : String) (db : DB) : HResult :=
  ⟨Outcome.ok ⟨RespBody.message "User deleted successfully", jsonHeaders⟩,
    db.filter (fun r => !(bindMatches r.ID (some uid))),
    [Eff.exec delete_sql [some uid], Eff.commit]⟩

/-- func.py handle_delete (lines 230 to 244): parse the path, require a
truthy user_id, then delete_user. -/
def handle_delete (req : Request) (db : DB) : HResult :=
  match parse_user_id req.url with
  | none => ⟨Outcome.err (PyErr.valueError "Missing required field: user_id"), db, []⟩
  | some user_id =>
    if user_id = "" then
      ⟨Outcome.err (PyErr.valueError "Missing required field: user_id"), db, []⟩
    else delete_user user_id db

/-- func.py handler (lines 35 to 48): dispatch on the HTTP method.  A
method outside POST, GET, PUT, DELETE falls through every branch and the
function returns None. -/
def handler (now : PyDateTime) (req : Request) (db : DB) : HResult :=
  if req.method = "POST" then handle_post now req db
  else if req.method = "GET" then handle_get req db
  else if req.method = "PUT" then handle_put req db
  else if req.method = "DELETE" then handle_delete req db
  else ⟨Outcome.noResponse, db, []⟩

/-- Is a trace entry the execution of one of the two SELECT statements? -/
def isSelectEff : Eff → Bool
  | Eff.exec s _ => s == select_one_sql || s == select_all_sql
  | Eff.commit => false

/-- A fixed timestamp used as the server clock in concrete evaluations. -/
def now0 : PyDateTime := ⟨2024, 1, 1, 0, 0, 0⟩

/-- A sample stored row used in concrete evaluations: the user with id 1. -/
def sampleRow : UserRow :=
  ⟨CellVal.vstr "1", CellVal.vstr "Grace", CellVal.vstr "Hopper",
    CellVal.vstr "ghopper", CellVal.vdate now0⟩

/-- A sample one-row database used in concrete evaluations. -/
def sampleDB : DB := [sampleRow]

/-
  Helper lemmas.
-/

/-- Splitting a string without separators yields the single piece. -/
theorem splitSlash_no_slash (l : List Char) (h : '/' ∉ l) : splitSlash l = [l] := by
  induction l with
  | nil => rfl
  | cons c cs ih =>
    have hc : c ≠ '/' := by
      intro hh
      exact h (hh ▸ List.mem_cons_self c cs)
    have hcs : '/' ∉ cs := fun hh => h (List.mem_cons_of_mem _ hh)
    simp only [splitSlash, if_neg hc, ih hcs]

/-- Splitting at the first separator after a separator-free chunk. -/
theorem splitSlash_append (a b : List Char) (h : '/' ∉ a) :
    splitSlash (a ++ '/' :: b) = a :: splitSlash b := by
  induction a with
  | nil => simp [splitSlash]
  | cons c cs ih =>
    have hc : c ≠ '/' := by
      intro hh
      exact h (hh ▸ List.mem_cons_self c cs)
    have hcs : '/' ∉ cs := fun hh => h (List.mem_cons_of_mem _ hh)
    simp only [List.cons_append, splitSlash, List.append_eq, if_neg hc, ih hcs]

/-- dropWhile does nothing when the first element already fails the
predicate. -/
theorem dropWhile_slash_eq_self (l : List Char) (h : ∀ c, l.head? = some c → c ≠ '/') :
    l.dropWhile (· = '/') = l := by
  cases l with
  | nil => rfl
  | cons c cs =>
    have hc : c ≠ '/' := h c rfl
    simp [List.dropWhile_cons, hc]

/-- Stripping does nothing when neither end of the string is a slash. -/
theorem stripSlash_eq_self (l : List Char)
    (h1 : ∀ c, l.head? = some c → c ≠ '/')
    (h2 : ∀ c, l.getLast? = some c → c ≠ '/') :
    stripSlash l = l := by
  unfold stripSlash
  rw [dropWhile_slash_eq_self l h1]
  rw [dropWhile_slash_eq_self l.reverse (by
    intro c hc
    rw [List.head?_reverse] at hc
    exact h2 c hc)]
  exact List.reverse_reverse l

/-- The segment list of a path of the shape prefix-slash-users-slash-id,
where the outer chunks are nonempty and slash-free. -/
theorem pathSegments_users (A I : List Char) (hA : A ≠ []) (hA2 : '/' ∉ A)
    (hI : I ≠ []) (hI2 : '/' ∉ I) :
    pathSegments ⟨A ++ '/' :: ("users".data ++ '/' :: I)⟩ = [A, "users".data, I] := by
  have hassoc : A ++ '/' :: ("users".data ++ '/' :: I) =
      (A ++ '/' :: "users".data ++ ['/']) ++ I := by simp
  have hstrip : stripSlash (A ++ '/' :: ("users".data ++ '/' :: I)) =
      A ++ '/' :: ("users".data ++ '/' :: I) := by
    apply stripSlash_eq_self
    · intro c hc
      cases A with
      | nil => exact absurd rfl hA
      | cons a as =>
        simp only [List.cons_append, List.head?, Option.some.injEq] at hc
        intro hslash
        rw [hslash] at hc
        exact hA2 (hc ▸ List.mem_cons_self a as)
    · intro c hc
      rw [hassoc, List.getLast?_append, List.getLast?_eq_getLast I hI] at hc
      simp only [Option.or, Option.some.injEq] at hc
      intro hslash
      rw [hslash] at hc
      exact hI2 (hc ▸ List.getLast_mem hI)
  show splitSlash (stripSlash (A ++ '/' :: ("users".data ++ '/' :: I))) = _
  rw [hstrip, splitSlash_append _ _ hA2,
    splitSlash_append _ _ (by decide : '/' ∉ "users".data), splitSlash_no_slash I hI2]

/-- Dispatch: a POST request reaches handle_post. -/
theorem handler_post_eq (now : PyDateTime) (req : Request) (db : DB)
    (hm : req.method = "POST") : handler now req db = handle_post now req db := by
  unfold handler
  rw [hm, if_pos rfl]

/-- Dispatch: a GET request reaches handle_get. -/
theorem handler_get_eq (now : PyDateTime) (req : Request) (db : DB)
    (hm : req.method = "GET") : handler now req db = handle_get req db := by
  unfold handler
  rw [hm, if_neg (by decide), if_pos rfl]

/-- Dispatch: a PUT request reaches handle_put. -/
theorem handler_put_eq (now : PyDateTime) (req : Request) (db : DB)
    (hm : req.method = "PUT") : handler now req db = handle_put req db := by
  unfold handler
  rw [hm, if_neg (by decide), if_neg (by decide), if_pos rfl]

/-- Dispatch: a DELETE request reaches handle_delete. -/
theorem handler_delete_eq (now : PyDateTime) (req : Request) (db : DB)
    (hm : req.method = "DELETE") : handler now req db = handle_delete req db := by
  unfold handler
  rw [hm, if_neg (by decide), if_neg (by decide), if_neg (by decide), if_pos rfl]

/-- The full result of a PUT request whose body parsed and whose path
carries an id: update_user reads the three payload fields without any
validation, executes the UPDATE with binds in the order first_name,
last_name, username, id, commits, and reports success. -/
theorem update_result (now : PyDateTime) (req : Request) (p : Payload)
    (db : DB) (uid : String)
    (hm : req.method = "PUT") (hb : req.body = BodyData.jsonBody p)
    (hu : parse_user_id req.url = some uid) (hne : uid ≠ "") :
    handler now req db =
      ⟨Outcome.ok ⟨RespBody.message "User updated successfully", jsonHeaders⟩,
        db.map (fun r =>
          if bindMatches r.ID (some uid) then
            { r with FIRST_NAME := toCell p.first_name,
                     LAST_NAME := toCell p.last_name,
                     USERNAME := toCell p.username }
          else r),
        [Eff.exec update_sql [p.first_name, p.last_name, p.username, some uid],
          Eff.commit]⟩ := by
  rw [handler_put_eq now req db hm]
  have h2 : handle_put req db = update_user req p db := by
    unfold handle_put
    rw [hb]
  rw [h2]
  unfold update_user
  rw [hu]
  simp only [if_neg hne]

/-- The row dict built by the rowfactory and the CREATED_ON fix, written
out flat: keys are the uppercase column names in select order; every
value passes through unchanged except a truthy CREATED_ON, which is
replaced by its isoformat string. -/
theorem fixCreatedOn_flat (r : UserRow) :
    fixCreatedOn (rowToDict r) =
      [("ID", r.ID), ("FIRST_NAME", r.FIRST_NAME), ("LAST_NAME", r.LAST_NAME),
       ("USERNAME", r.USERNAME),
       ("CREATED_ON", if cellTruthy r.CREATED_ON then isoCell r.CREATED_ON
        else r.CREATED_ON)] := by
  have hget : dictGet (rowToDict r) "CREATED_ON" = some r.CREATED_ON := rfl
  have hset : ∀ v, dictSet (rowToDict r) "CREATED_ON" v =
      [("ID", r.ID), ("FIRST_NAME", r.FIRST_NAME), ("LAST_NAME", r.LAST_NAME),
       ("USERNAME", r.USERNAME), ("CREATED_ON", v)] := fun v => rfl
  unfold fixCreatedOn
  rw [hget]
  simp only [optCellTruthy, Option.getD_some]
  by_cases h : cellTruthy r.CREATED_ON
  · rw [if_pos h, hset, if_pos h]
  · rw [if_neg h, if_neg h]
    rfl

/-
  Claim theorems.
-/

/-- Claim C1, counterexample: a PUT request whose payload lacks username
does not fail; the UPDATE statement is executed with a NULL bind for
username, committed, and the handler reports success. -/
theorem put_missing_username_still_updates :
    handler now0 ⟨"PUT", "/users/42",
        BodyData.jsonBody ⟨some "Ada", some "Lovelace", none⟩⟩ [] =
      ⟨Outcome.ok ⟨RespBody.message "User updated successfully", jsonHeaders⟩, [],
        [Eff.exec update_sql [some "Ada", some "Lovelace", none, some "42"],
          Eff.commit]⟩ := by decide

/-- Claim C1, amended: for every PUT request with a parsed JSON payload
and a path id, update_user reads first_name, last_name and username
WITHOUT validating them: whether or not they are missing or falsy, no
MissingField error is raised and the UPDATE executes with those values
(NULL for a missing field) as binds, commits, and reports success. -/
theorem put_no_field_validation (now : PyDateTime) (req : Request) (p : Payload)
    (db : DB) (uid : String)
    (hm : req.method = "PUT") (hb : req.body = BodyData.jsonBody p)
    (hu : parse_user_id req.url = some uid) (hne : uid ≠ "") :
    handler now req db =
      ⟨Outcome.ok ⟨RespBody.message "User updated successfully", jsonHeaders⟩,
        db.map (fun r =>
          if bindMatches r.ID (some uid) then
            { r with FIRST_NAME := toCell p.first_name,
                     LAST_NAME := toCell p.last_name,
                     USERNAME := toCell p.username }
          else r),
        [Eff.exec update_sql [p.first_name, p.last_name, p.username, some uid],
          Eff.commit]⟩ :=
  update_result now req p db uid hm hb hu hne

/-- Claim C1, witness: the amended theorem applied to a concrete PUT with
every field missing. -/
theorem put_no_field_validation_witness :
    handler now0 ⟨"PUT", "/users/9", BodyData.jsonBody ⟨none, none, none⟩⟩ [] =
      ⟨Outcome.ok ⟨RespBody.message "User updated successfully", jsonHeaders⟩, [],
        [Eff.exec update_sql [none, none, none, some "9"], Eff.commit]⟩ :=
  put_no_field_validation now0 ⟨"PUT", "/users/9", BodyData.jsonBody ⟨none, none, none⟩⟩
    ⟨none, none, none⟩ [] "9" rfl rfl (by decide) (by decide)

/-- Claim C2, counterexample: a POST whose payload misses only username
fails with the ValueError whose message lists ALL three required fields,
not one naming only the offending field username. -/
theorem post_missing_username_error_not_specific :
    (handler now0 ⟨"POST", "/users/7",
        BodyData.jsonBody ⟨some "Ada", some "Lovelace", none⟩⟩ []).outcome =
      Outcome.err
        (PyErr.valueError "Missing required fields: first_name, last_name, username") ∧
    (handler now0 ⟨"POST", "/users/7",
        BodyData.jsonBody ⟨some "Ada", some "Lovelace", none⟩⟩ []).outcome ≠
      Outcome.err (PyErr.valueError "Missing required fields: username") := by
  constructor
  · decide
  · decide

/-- Claim C2, amended: for every POST whose parsed payload has at least
one missing or falsy field among first_name, last_name, username,
validation fails before any SQL with ONE combined MissingField error whose
fixed message names all three required fields, regardless of which field
offends. -/
theorem post_validation_combined_error (now : PyDateTime) (req : Request) (p : Payload)
    (db : DB) (uid : String)
    (hm : req.method = "POST") (hb : req.body = BodyData.jsonBody p)
    (hu : parse_user_id req.url = some uid) (hne : uid ≠ "")
    (hf : pyTruthy p.first_name = false ∨ pyTruthy p.last_name = false ∨
      pyTruthy p.username = false) :
    handler now req db =
      ⟨Outcome.err
          (PyErr.valueError "Missing required fields: first_name, last_name, username"),
        db, []⟩ := by
  rw [handler_post_eq now req db hm]
  unfold handle_post
  rw [hb]
  simp only [hu, Option.getD_some]
  rw [if_neg hne]
  rw [if_pos]
  rcases hf with h | h | h <;> simp [h]

/-- Claim C2, witness: the amended theorem applied to a concrete POST
missing only first_name. -/
theorem post_validation_combined_error_witness :
    handler now0 ⟨"POST", "/users/5",
        BodyData.jsonBody ⟨none, some "Lovelace", some "ada"⟩⟩ [] =
      ⟨Outcome.err
          (PyErr.valueError "Missing required fields: first_name, last_name, username"),
        [], []⟩ :=
  post_validation_combined_error now0
    ⟨"POST", "/users/5", BodyData.jsonBody ⟨none, some "Lovelace", some "ada"⟩⟩
    ⟨none, some "Lovelace", some "ada"⟩ [] "5" rfl rfl (by decide) (by decide)
    (Or.inl (by decide))

/-- Claim C3: on a method outside POST, GET, PUT, DELETE the dispatcher
falls through every branch and returns None: no response, no error, no
statement executed.  This contradicts the specified UnsupportedMethod
error, so the claim marks a code bug at this input. -/
theorem unsupported_method_returns_none :
    handler now0 ⟨"PATCH", "/users/1", BodyData.emptyBody⟩ [] =
      ⟨Outcome.noResponse, [], []⟩ := by decide

/-- Claim C4: the path parser strips leading and trailing slashes and
splits on slash; on every path of the shape prefix/users/id (prefix and
id nonempty and slash-free) it returns exactly the id, and on every path
whose segment list fails the length-and-users test it returns none.  The
parser is a total Lean function, hence pure and exception-free. -/
theorem path_parser_correct :
    (∀ pre id : String, pre.data ≠ [] → '/' ∉ pre.data → id.data ≠ [] →
      '/' ∉ id.data →
      parse_user_id (pre ++ "/users/" ++ id) = some id) ∧
    (∀ path : String,
      ¬(2 ≤ (pathSegments path).length ∧
        (pathSegments path).getD ((pathSegments path).length - 2) [] = "users".data) →
      parse_user_id path = none) := by
  constructor
  · intro pre id hp hp2 hi hi2
    have hstr : pre ++ "/users/" ++ id =
        ⟨pre.data ++ '/' :: ("users".data ++ '/' :: id.data)⟩ := by
      apply String.ext
      rw [String.data_append, String.data_append]
      rw [show "/users/".data = '/' :: ("users".data ++ ['/']) from by decide]
      simp
    rw [hstr]
    unfold parse_user_id
    rw [pathSegments_users pre.data id.data hp hp2 hi hi2]
    rw [if_pos (by simp [List.getD])]
    simp only [List.getD, Option.some.injEq]
    exact String.ext rfl
  · intro path h
    unfold parse_user_id
    rw [if_neg h]

/-- Claim C4, witness: the parser applied to a matching and to a
non-matching concrete path. -/
theorem path_parser_correct_witness :
    parse_user_id ("api" ++ "/users/" ++ "42") = some "42" ∧
    parse_user_id "xyz" = none :=
  ⟨path_parser_correct.1 "api" "42" (by decide) (by decide) (by decide) (by decide),
   path_parser_correct.2 "xyz" (by decide)⟩

/-- Claim C5: a valid POST executes exactly the INSERT statement with
binds in the order id, first_name, last_name, username and commits; a
valid PUT executes exactly the UPDATE statement with binds in the order
first_name, last_name, username, id and commits. -/
theorem sql_statements_and_bind_order :
    (∀ (now : PyDateTime) (req : Request) (p : Payload) (db : DB) (uid : String),
      req.method = "POST" → req.body = BodyData.jsonBody p →
      parse_user_id req.url = some uid → uid ≠ "" →
      pyTruthy p.first_name = true → pyTruthy p.last_name = true →
      pyTruthy p.username = true → idExists db uid = false →
      (handler now req db).trace =
        [Eff.exec insert_sql [some uid, p.first_name, p.last_name, p.username],
          Eff.commit]) ∧
    (∀ (now : PyDateTime) (req : Request) (p : Payload) (db : DB) (uid : String),
      req.method = "PUT" → req.body = BodyData.jsonBody p →
      parse_user_id req.url = some uid → uid ≠ "" →
      (handler now req db).trace =
        [Eff.exec update_sql [p.first_name, p.last_name, p.username, some uid],
          Eff.commit]) := by
  constructor
  · intro now req p db uid hm hb hu hne hf hl hus hdup
    rw [handler_post_eq now req db hm]
    unfold handle_post
    rw [hb]
    simp only [hu, Option.getD_some]
    rw [if_neg hne, if_neg (by simp [hf, hl, hus]), if_neg (by simp [hdup])]
  · intro now req p db uid hm hb hu hne
    rw [update_result now req p db uid hm hb hu hne]

/-- Claim C5, witness: both statement shapes at concrete requests. -/
theorem sql_statements_and_bind_order_witness :
    (handler now0 ⟨"POST", "/users/9",
        BodyData.jsonBody ⟨some "Jo", some "Doe", some "jdoe"⟩⟩ []).trace =
      [Eff.exec insert_sql [some "9", some "Jo", some "Doe", some "jdoe"],
        Eff.commit] ∧
    (handler now0 ⟨"PUT", "/users/9",
        BodyData.jsonBody ⟨some "Jo", some "Doe", some "jdoe"⟩⟩ []).trace =
      [Eff.exec update_sql [some "Jo", some "Doe", some "jdoe", some "9"],
        Eff.commit] :=
  ⟨sql_statements_and_bind_order.1 now0
      ⟨"POST", "/users/9", BodyData.jsonBody ⟨some "Jo", some "Doe", some "jdoe"⟩⟩
      ⟨some "Jo", some "Doe", some "jdoe"⟩ [] "9" rfl rfl (by decide) (by decide)
      (by decide) (by decide) (by decide) (by decide),
   sql_statements_and_bind_order.2 now0
      ⟨"PUT", "/users/9", BodyData.jsonBody ⟨some "Jo", some "Doe", some "jdoe"⟩⟩
      ⟨some "Jo", some "Doe", some "jdoe"⟩ [] "9" rfl rfl (by decide) (by decide)⟩

/-- Claim C6: on POST and PUT, an empty body raises the KeyError standing
for MissingPayload and a non-JSON body raises the JSON decode error
standing for MalformedPayload, in both cases with an empty statement
trace and an unchanged database: the failure happens before any database
access. -/
theorem payload_errors_before_db (now : PyDateTime) (req : Request) (db : DB)
    (hm : req.method = "POST" ∨ req.method = "PUT") :
    (req.body = BodyData.emptyBody →
      handler now req db =
        ⟨Outcome.err (PyErr.keyError "No keys in payload"), db, []⟩) ∧
    (req.body = BodyData.badJson →
      handler now req db = ⟨Outcome.err PyErr.jsonDecodeError, db, []⟩) := by
  rcases hm with hm | hm
  · rw [handler_post_eq now req db hm]
    constructor <;> intro hb <;> unfold handle_post <;> rw [hb]
  · rw [handler_put_eq now req db hm]
    constructor <;> intro hb <;> unfold handle_put <;> rw [hb]

/-- Claim C6, witness: an empty-body POST and a malformed-body PUT. -/
theorem payload_errors_before_db_witness :
    handler now0 ⟨"POST", "/users/1", BodyData.emptyBody⟩ sampleDB =
      ⟨Outcome.err (PyErr.keyError "No keys in payload"), sampleDB, []⟩ ∧
    handler now0 ⟨"PUT", "/users/1", BodyData.badJson⟩ sampleDB =
      ⟨Outcome.err PyErr.jsonDecodeError, sampleDB, []⟩ :=
  ⟨(payload_errors_before_db now0 ⟨"POST", "/users/1", BodyData.emptyBody⟩ sampleDB
      (Or.inl rfl)).1 rfl,
   (payload_errors_before_db now0 ⟨"PUT", "/users/1", BodyData.badJson⟩ sampleDB
      (Or.inr rfl)).2 rfl⟩

/-- Claim C7: a GET on an id matching no row produces a SUCCESSFUL
response with body message User not found; no error is raised, the only
statement executed is the single-row SELECT, and the database is
unchanged. -/
theorem get_unknown_id_not_found (now : PyDateTime) (req : Request) (db : DB)
    (uid : String)
    (hm : req.method = "GET") (hu : parse_user_id req.url = some uid)
    (hne : uid ≠ "")
    (habs : ∀ r ∈ db, bindMatches r.ID (some uid) = false) :
    handler now req db =
      ⟨Outcome.ok ⟨RespBody.message "User not found", jsonHeaders⟩, db,
        [Eff.exec select_one_sql [some uid]]⟩ := by
  rw [handler_get_eq now req db hm]
  unfold handle_get
  rw [hu]
  simp only [if_neg hne]
  unfold read_user
  have hfind : db.find? (fun r => bindMatches r.ID (some uid)) = none := by
    rw [List.find?_eq_none]
    intro x hx
    simp [habs x hx]
  rw [hfind]

/-- Claim C7, witness: GET of id 9 on a database holding only id 1. -/
theorem get_unknown_id_not_found_witness :
    handler now0 ⟨"GET", "/users/9", BodyData.emptyBody⟩ sampleDB =
      ⟨Outcome.ok ⟨RespBody.message "User not found", jsonHeaders⟩, sampleDB,
        [Eff.exec select_one_sql [some "9"]]⟩ :=
  get_unknown_id_not_found now0 ⟨"GET", "/users/9", BodyData.emptyBody⟩ sampleDB "9"
    rfl (by decide) (by decide) (by decide)

/-- Claim C8: update and delete perform no existence check: on an id
matching no row, PUT still executes the UPDATE, commits, reports the
update success message and leaves the database unchanged (zero rows
affected), and DELETE still executes the DELETE, commits, reports the
delete success message and leaves the database unchanged. -/
theorem update_delete_no_existence_check :
    (∀ (now : PyDateTime) (req : Request) (p : Payload) (db : DB) (uid : String),
      req.method = "PUT" → req.body = BodyData.jsonBody p →
      parse_user_id req.url = some uid → uid ≠ "" →
      (∀ r ∈ db, bindMatches r.ID (some uid) = false) →
      handler now req db =
        ⟨Outcome.ok ⟨RespBody.message "User updated successfully", jsonHeaders⟩, db,
          [Eff.exec update_sql [p.first_name, p.last_name, p.username, some uid],
            Eff.commit]⟩) ∧
    (∀ (now : PyDateTime) (req : Request) (db : DB) (uid : String),
      req.method = "DELETE" →
      parse_user_id req.url = some uid → uid ≠ "" →
      (∀ r ∈ db, bindMatches r.ID (some uid) = false) →
      handler now req db =
        ⟨Outcome.ok ⟨RespBody.message "User deleted successfully", jsonHeaders⟩, db,
          [Eff.exec delete_sql [some uid], Eff.commit]⟩) := by
  constructor
  · intro now req p db uid hm hb hu hne habs
    rw [update_result now req p db uid hm hb hu hne]
    have hmap : db.map (fun r =>
        if bindMatches r.ID (some uid) then
          { r with FIRST_NAME := toCell p.first_name,
                   LAST_NAME := toCell p.last_name,
                   USERNAME := toCell p.username }
        else r) = db := by
      conv_rhs => rw [← List.map_id db]
      apply List.map_congr_left
      intro a ha
      simp [habs a ha]
    rw [hmap]
  · intro now req db uid hm hu hne habs
    rw [handler_delete_eq now req db hm]
    unfold handle_delete
    rw [hu]
    simp only [if_neg hne]
    unfold delete_user
    have hfilt : db.filter (fun r => !(bindMatches r.ID (some uid))) = db := by
      rw [List.filter_eq_self]
      intro a ha
      simp [habs a ha]
    rw [hfilt]

/-- Claim C8, witness: PUT and DELETE of the non-existent id 9 on a
database holding only id 1. -/
theorem update_delete_no_existence_check_witness :
    handler now0 ⟨"PUT", "/users/9",
        BodyData.jsonBody ⟨some "Jo", some "Doe", some "jdoe"⟩⟩ sampleDB =
      ⟨Outcome.ok ⟨RespBody.message "User updated successfully", jsonHeaders⟩,
        sampleDB,
        [Eff.exec update_sql [some "Jo", some "Doe", some "jdoe", some "9"],
          Eff.commit]⟩ ∧
    handler now0 ⟨"DELETE", "/users/9", BodyData.emptyBody⟩ sampleDB =
      ⟨Outcome.ok ⟨RespBody.message "User deleted successfully", jsonHeaders⟩,
        sampleDB, [Eff.exec delete_sql [some "9"], Eff.commit]⟩ :=
  ⟨update_delete_no_existence_check.1 now0
      ⟨"PUT", "/users/9", BodyData.jsonBody ⟨some "Jo", some "Doe", some "jdoe"⟩⟩
      ⟨some "Jo", some "Doe", some "jdoe"⟩ sampleDB "9" rfl rfl (by decide)
      (by decide) (by decide),
   update_delete_no_existence_check.2 now0
      ⟨"DELETE", "/users/9", BodyData.emptyBody⟩ sampleDB "9" rfl (by decide)
      (by decide) (by decide)⟩

/-- Claim C9: the row mapper keys every mapped row by the uppercase
column names in select order, replaces a present (truthy) CREATED_ON by
its isoformat ISO-8601 string while all other values pass through
unchanged, and a GET over the whole table of an empty database answers
with the empty array, not an error. -/
theorem row_mapper_correct :
    (∀ r : UserRow,
      fixCreatedOn (rowToDict r) =
        [("ID", r.ID), ("FIRST_NAME", r.FIRST_NAME), ("LAST_NAME", r.LAST_NAME),
         ("USERNAME", r.USERNAME),
         ("CREATED_ON", if cellTruthy r.CREATED_ON then isoCell r.CREATED_ON
          else r.CREATED_ON)]) ∧
    (∀ (r : UserRow) (d : PyDateTime), r.CREATED_ON = CellVal.vdate d →
      dictGet (fixCreatedOn (rowToDict r)) "CREATED_ON" =
        some (CellVal.vstr (isoformat d))) ∧
    (∀ (now : PyDateTime) (req : Request), req.method = "GET" →
      parse_user_id req.url = none →
      handler now req [] =
        ⟨Outcome.ok ⟨RespBody.rowArr [], jsonHeaders⟩, [],
          [Eff.exec select_all_sql []]⟩) := by
  refine ⟨fixCreatedOn_flat, ?_, ?_⟩
  · intro r d hd
    rw [fixCreatedOn_flat r, hd]
    rfl
  · intro now req hm hu
    rw [handler_get_eq now req [] hm]
    unfold handle_get
    rw [hu]
    rfl

/-- Claim C9, witness: the mapper on the sample row (timestamp becomes
2024-01-01T00:00:00) and a GET all on the empty database. -/
theorem row_mapper_correct_witness :
    fixCreatedOn (rowToDict sampleRow) =
      [("ID", CellVal.vstr "1"), ("FIRST_NAME", CellVal.vstr "Grace"),
       ("LAST_NAME", CellVal.vstr "Hopper"), ("USERNAME", CellVal.vstr "ghopper"),
       ("CREATED_ON", CellVal.vstr "2024-01-01T00:00:00")] ∧
    dictGet (fixCreatedOn (rowToDict sampleRow)) "CREATED_ON" =
      some (CellVal.vstr (isoformat now0)) ∧
    handler now0 ⟨"GET", "/users", BodyData.emptyBody⟩ [] =
      ⟨Outcome.ok ⟨RespBody.rowArr [], jsonHeaders⟩, [],
        [Eff.exec select_all_sql []]⟩ := by
  refine ⟨?_, ?_, ?_⟩
  · rw [row_mapper_correct.1 sampleRow]
    decide
  · exact row_mapper_correct.2.1 sampleRow now0 rfl
  · exact row_mapper_correct.2.2 now0 ⟨"GET", "/users", BodyData.emptyBody⟩ rfl
      (by decide)

/-- Claim C10: a GET never mutates the database: whatever the path, the
database after the call equals the database before it, and every trace
entry is the execution of one of the two SELECT statements: no commit,
no other statement. -/
theorem get_preserves_db (now : PyDateTime) (req : Request) (db : DB)
    (hm : req.method = "GET") :
    (handler now req db).db = db ∧
    (handler now req db).trace.all isSelectEff = true := by
  rw [handler_get_eq now req db hm]
  unfold handle_get
  cases hp : parse_user_id req.url with
  | none => exact ⟨rfl, rfl⟩
  | some s =>
    by_cases hs : s = ""
    · simp only [if_pos hs]
      exact ⟨rfl, rfl⟩
    · simp only [if_neg hs]
      unfold read_user
      cases hfind : db.find? (fun r => bindMatches r.ID (some s)) with
      | none => exact ⟨rfl, rfl⟩
      | some row => exact ⟨rfl, rfl⟩

/-- Claim C10, witness: a GET of one id on the sample database. -/
theorem get_preserves_db_witness :
    (handler now0 ⟨"GET", "/users/1", BodyData.emptyBody⟩ sampleDB).db = sampleDB ∧
    (handler now0 ⟨"GET", "/users/1",
        BodyData.emptyBody⟩ sampleDB).trace.all isSelectEff = true :=
  get_preserves_db now0 ⟨"GET", "/users/1", BodyData.emptyBody⟩ sampleDB rfl
